import Mathlib

/-!
Shallow embedding of the synthesis-and-export engine of the binaural beat
generator app (AudioExporter, Track, NoiseTrack, IsochronicTrack,
AudioController), together with theorems settling the spec claims.

All JavaScript numbers are modelled as rationals; a JS number that may be
NaN or come from an `undefined` property access is modelled as `Option ℚ`
with `none` standing for the NaN/undefined case.
-/

namespace BinauralApp

/-- JS number that may be NaN (or an `undefined` value coerced into
arithmetic, which yields NaN); `none` is the NaN case. -/
abbrev JsNum := Option ℚ

/-- JS addition on possibly-NaN numbers: NaN propagates. -/
def jsAdd : JsNum → JsNum → JsNum
  | some a, some b => some (a + b)
  | _, _ => none

/-- Truncation toward zero, the integer conversion JS applies to a
(possibly fractional) number stored through a `DataView` setter. -/
def jsTrunc (q : ℚ) : ℤ := if q < 0 then ⌈q⌉ else ⌊q⌋

/-- The ToUint32 abstract operation used by `DataView.setUint32`: NaN maps
to 0, any other number is truncated toward zero and reduced modulo 2^32. -/
def jsToUint32 : JsNum → ℕ
  | none => 0
  | some q => (jsTrunc q % 4294967296).toNat

/-- The result of `_floatTo16BitPCM`: a JS `ArrayBuffer` holding raw bytes. -/
structure JsArrayBuffer where
  bytes : List ℕ
  deriving DecidableEq

/-- The `byteLength` property a JS `ArrayBuffer` actually exposes. -/
def JsArrayBuffer.byteLength (b : JsArrayBuffer) : ℕ := b.bytes.length

/-- Property access `buf.length` on a JS `ArrayBuffer`: `ArrayBuffer` has a
`byteLength` property but no `length` property, so this access evaluates to
`undefined`, which behaves as NaN (`none`) once used in arithmetic.
`_audioBufferToWav` performs exactly this access when it calls
`this._createWavHeader(pcmData.length, ...)`. -/
def JsArrayBuffer.lengthProp (_ : JsArrayBuffer) : JsNum := none

/-- Clamping of one float sample in `_floatTo16BitPCM`:
`Math.max(-1, Math.min(1, float32Array[i]))`. -/
def clampSample (s : ℚ) : ℚ := max (-1) (min 1 s)

/-- The scaled 16-bit value of one sample in `_floatTo16BitPCM`:
`sample < 0 ? sample * 0x8000 : sample * 0x7FFF`, truncated by `setInt16`. -/
def sampleToInt16 (s : ℚ) : ℤ :=
  jsTrunc (if clampSample s < 0 then clampSample s * 32768 else clampSample s * 32767)

/-- Little-endian byte pair of a 16-bit two's-complement value, as written
by `view.setInt16(_, value, true)`. -/
def int16LE (v : ℤ) : List ℕ :=
  [(v % 65536).toNat % 256, (v % 65536).toNat / 256]

/-- Little-endian byte pair written by `view.setUint16(_, v, true)`. -/
def u16le (v : ℕ) : List ℕ := [v % 256, v / 256 % 256]

/-- Little-endian byte quadruple written by `view.setUint32(_, v, true)`. -/
def u32le (v : ℕ) : List ℕ :=
  [v % 256, v / 256 % 256, v / 65536 % 256, v / 16777216 % 256]

/-- `_floatTo16BitPCM`: each float sample is clamped to the range from -1
to 1, scaled to a signed 16-bit value and stored little-endian; the result
is an `ArrayBuffer` of `2 * length` bytes. -/
def floatTo16BitPCM (xs : List ℚ) : JsArrayBuffer :=
  ⟨(xs.map fun s => int16LE (sampleToInt16 s)).flatten⟩

/-- `_interleaveChannels`: `result[i * numChannels + channel] =
channelData[channel][i]` for `i` below `channelData[0].length`. -/
def interleaveChannels (chs : List (List ℚ)) : List ℚ :=
  ((List.range (chs.headD []).length).map fun i => chs.map fun ch => ch.getD i 0).flatten

/-- `_createWavHeader(dataLength, numChannels, sampleRate, bitDepth)`: the
44 header bytes, with `totalLength = dataLength + 36` in the RIFF size
field and `dataLength` in the data-chunk length field, both through the
`setUint32` conversion. -/
def createWavHeader (dataLength : JsNum) (numChannels sampleRate bitDepth : ℕ) :
    List ℕ :=
  let bytesPerSample := bitDepth / 8
  let blockAlign := numChannels * bytesPerSample
  let byteRate := sampleRate * blockAlign
  let totalLength := jsAdd dataLength (some 36)
  (['R', 'I', 'F', 'F'].map Char.toNat)
    ++ u32le (jsToUint32 totalLength)
    ++ (['W', 'A', 'V', 'E'].map Char.toNat)
    ++ (['f', 'm', 't', ' '].map Char.toNat)
    ++ u32le 16
    ++ u16le 1
    ++ u16le numChannels
    ++ u32le sampleRate
    ++ u32le byteRate
    ++ u16le blockAlign
    ++ u16le bitDepth
    ++ (['d', 'a', 't', 'a'].map Char.toNat)
    ++ u32le (jsToUint32 dataLength)

/-- `_audioBufferToWav`: interleave the channels, quantize to 16-bit PCM,
prepend the header built from `pcmData.length` (the `undefined`-valued
property access, see `JsArrayBuffer.lengthProp`), and concatenate. -/
def audioBufferToWav (channels : List (List ℚ)) (sampleRate : ℕ) : List ℕ :=
  let interleaved := interleaveChannels channels
  let pcmData := floatTo16BitPCM interleaved
  createWavHeader pcmData.lengthProp channels.length sampleRate 16 ++ pcmData.bytes

/-- C1: the WAV encoder is claimed to write `payload + 36` into the RIFF
size field (bytes 4 to 7) and the exact payload byte count into the
data-chunk length field (bytes 40 to 43). On the code this fails: for the
two-channel, two-samples-per-channel all-zero buffer the payload is 8
bytes, yet both fields are written as 0, because `_audioBufferToWav`
passes `pcmData.length` (which is `undefined` on an `ArrayBuffer`, whose
size property is `byteLength`) into `_createWavHeader`, so both
`setUint32` calls receive NaN and store 0. -/
theorem c1_wav_size_fields_written_as_zero :
    (audioBufferToWav [[0, 0], [0, 0]] 44100).length = 52 ∧
    (floatTo16BitPCM (interleaveChannels [[0, 0], [0, 0]])).byteLength = 8 ∧
    ((audioBufferToWav [[0, 0], [0, 0]] 44100).drop 4).take 4 = [0, 0, 0, 0] ∧
    ((audioBufferToWav [[0, 0], [0, 0]] 44100).drop 40).take 4 = [0, 0, 0, 0] ∧
    u32le (8 + 36) ≠ [0, 0, 0, 0] := by
  decide

/-!
Noise generators. Each generator consumes the successive values of
`Math.random()`; a generator is parameterized by that stream `r` together
with the position of its first unread value and the number of samples to
produce. Both channels of a buffer are filled by consecutive segments of
the same stream, so one channel is the generic object of study.
-/

/-- Predicate for a stream of `Math.random()` results: every value lies in
the interval from 0 inclusive to 1 exclusive. -/
def ValidRandomStream (r : ℕ → ℚ) : Prop := ∀ i, 0 ≤ r i ∧ r i < 1

/-- White noise channel, `channelData[i] = Math.random() * 2 - 1`.
This loop body is identical in the live `_createWhiteNoiseBuffer` of
NoiseTrack.js and in the white branch of `_cloneNoiseTrack` in the
offline renderer. -/
def whiteNoiseChannel (r : ℕ → ℚ) (n : ℕ) : List ℚ :=
  (List.range n).map fun i => r i * 2 - 1

/-- Final peak magnitude of a run: the value of
`maxValue = Math.max(maxValue, Math.abs(v))` accumulated from 0 over all
generated raw samples, as in `_createPinkNoiseBuffer` and
`_createBrownNoiseBuffer` of NoiseTrack.js. -/
def peakAbs (xs : List ℚ) : ℚ := xs.foldl (fun m x => max m |x|) 0

/-- Octave indices of the Voss loop in `_createPinkNoiseBuffer`,
`for (let j = 0; j < octaves; j++)` with `octaves = 7`. -/
def octaveIndices : List ℕ := [0, 1, 2, 3, 4, 5, 6]

/-- One pass of the octave loop of `_createPinkNoiseBuffer` (Voss): for
each octave `j` in order, if `i % 2^j == 0` the octave value is replaced
by a fresh `Math.random() * 2 - 1`; returns the next unread stream
position together with the updated octave values. -/
def vossStep (r : ℕ → ℚ) (i : ℕ) : List ℕ → ℕ → List ℚ → ℕ × List ℚ
  | [], pos, _ => (pos, [])
  | _ :: _, pos, [] => (pos, [])
  | j :: js, pos, v :: vs =>
    if i % 2 ^ j = 0 then
      let rest := vossStep r i js (pos + 1) vs
      (rest.1, (r pos * 2 - 1) :: rest.2)
    else
      let rest := vossStep r i js pos vs
      (rest.1, v :: rest.2)

/-- The per-sample sums of the live pink generator: at step `i` the seven
octave values are updated by `vossStep` and their sum is recorded
(`channelData[i] = sum`). -/
def vossSums (r : ℕ → ℚ) : ℕ → ℕ → ℕ → List ℚ → List ℚ
  | _, 0, _, _ => []
  | i, k + 1, pos, vs =>
    let st := vossStep r i octaveIndices pos vs
    st.2.sum :: vossSums r (i + 1) k st.1 st.2

/-- Live pink noise channel (`_createPinkNoiseBuffer`): seven octave
values starting at 0, per-sample sums, then every sample divided by the
run's peak magnitude. -/
def pinkNoiseChannelLive (r : ℕ → ℚ) (n : ℕ) : List ℚ :=
  let sums := vossSums r 0 n 0 (List.replicate 7 0)
  sums.map fun s => s / peakAbs sums

/-- The raw random walk of the live brown generator
(`_createBrownNoiseBuffer`): `lastValue += Math.random() * 0.2 - 0.1;
lastValue = 0.99 * lastValue; channelData[i] = lastValue`. -/
def brownWalkLive (r : ℕ → ℚ) : ℕ → ℕ → ℚ → List ℚ
  | _, 0, _ => []
  | pos, k + 1, lastValue =>
    let next := 99 / 100 * (lastValue + (r pos * (2 / 10) - 1 / 10))
    next :: brownWalkLive r (pos + 1) k next

/-- Live brown noise channel: the raw walk normalized by the run's peak
magnitude (`channelData[i] /= maxValue`). -/
def brownNoiseChannelLive (r : ℕ → ℚ) (n : ℕ) : List ℚ :=
  let raw := brownWalkLive r 0 n 0
  raw.map fun s => s / peakAbs raw

/-- The offline brown noise channel of `_cloneNoiseTrack`:
`const white = Math.random() * 2 - 1;
lastOut = (lastOut + (0.02 * white)) / 1.02;
channelData[i] = lastOut * 3.5` — a fixed scaling, with no peak
normalization. -/
def brownWalkOffline (r : ℕ → ℚ) : ℕ → ℕ → ℚ → List ℚ
  | _, 0, _ => []
  | pos, k + 1, lastOut =>
    let white := r pos * 2 - 1
    let next := (lastOut + 2 / 100 * white) / (102 / 100)
    next * (7 / 2) :: brownWalkOffline r (pos + 1) k next

/-- The offline pink noise channel of `_cloneNoiseTrack`: the six-term
Kellet filter bank driven by a fresh white sample each step,
`b0 = 0.99886 * b0 + white * 0.0555179` through
`b5 = -0.7616 * b5 - white * 0.0168980`, then
`channelData[i] = b0 + b1 + b2 + b3 + b4 + b5 + b6 + white * 0.5362`
scaled by the fixed constant 0.11 (`channelData[i] *= 0.11`), with
`b6 = white * 0.115926` updated after the sample is emitted — again with
no peak normalization. -/
def pinkOfflineChannel (r : ℕ → ℚ) :
    ℕ → ℕ → ℚ → ℚ → ℚ → ℚ → ℚ → ℚ → ℚ → List ℚ
  | _, 0, _, _, _, _, _, _, _ => []
  | pos, k + 1, b0, b1, b2, b3, b4, b5, b6 =>
    let white := r pos * 2 - 1
    let c0 := 99886 / 100000 * b0 + white * (555179 / 10000000)
    let c1 := 99332 / 100000 * b1 + white * (750759 / 10000000)
    let c2 := 96900 / 100000 * b2 + white * (1538520 / 10000000)
    let c3 := 86650 / 100000 * b3 + white * (3104856 / 10000000)
    let c4 := 55000 / 100000 * b4 + white * (5329522 / 10000000)
    let c5 := -(7616 / 10000) * b5 - white * (168980 / 10000000)
    let sample := (c0 + c1 + c2 + c3 + c4 + c5 + b6 + white * (5362 / 10000)) * (11 / 100)
    sample ::
      pinkOfflineChannel r (pos + 1) k c0 c1 c2 c3 c4 c5 (white * (115926 / 1000000))

/-- A concrete attainable `Math.random()` stream: every draw is 0.999. -/
def steadyStream : ℕ → ℚ := fun _ => 999 / 1000

/-- Every element of a list is bounded in magnitude by the run's peak. -/
theorem abs_le_peakAbs (xs : List ℚ) (x : ℚ) (hx : x ∈ xs) : |x| ≤ peakAbs xs := by
  have key : ∀ (ys : List ℚ) (acc : ℚ),
      acc ≤ ys.foldl (fun m x => max m |x|) acc ∧
      ∀ y ∈ ys, |y| ≤ ys.foldl (fun m x => max m |x|) acc := by
    intro ys
    induction ys with
    | nil => intro acc; exact ⟨le_refl _, by simp⟩
    | cons z zs ih =>
      intro acc
      constructor
      · exact le_trans (le_max_left acc |z|) (ih (max acc |z|)).1
      · intro y hy
        rcases List.mem_cons.mp hy with h | h
        · subst h
          exact le_trans (le_max_right acc |y|) (ih (max acc |y|)).1
        · exact (ih (max acc |z|)).2 y h
  exact (key xs 0).2 x hx

/-- A run whose raw samples include a nonzero value has positive peak. -/
theorem peakAbs_pos_of_mem (xs : List ℚ) (x : ℚ) (hx : x ∈ xs) (h0 : x ≠ 0) :
    0 < peakAbs xs :=
  lt_of_lt_of_le (abs_pos.mpr h0) (abs_le_peakAbs xs x hx)

/-- Dividing every element of a list by its (positive) peak magnitude
yields values in the interval from -1 to 1. -/
theorem mem_div_peakAbs_bounds (xs : List ℚ) (hpos : 0 < peakAbs xs) :
    ∀ s ∈ xs.map fun x => x / peakAbs xs, -1 ≤ s ∧ s ≤ 1 := by
  intro s hs
  rcases List.mem_map.mp hs with ⟨x, hx, rfl⟩
  have hb : |x| ≤ peakAbs xs := abs_le_peakAbs xs x hx
  have : |x / peakAbs xs| ≤ 1 := by
    rw [abs_div, abs_of_pos hpos]
    exact (div_le_one hpos).mpr hb
  exact abs_le.mp this

set_option maxHeartbeats 4000000 in
/-- C2 counterexample: the claim asserts every sample of every noise
generator, offline included, lies in the interval from -1 to 1. With the
attainable random stream whose draws are all 0.999 (valid since that value
lies in the interval from 0 inclusive to 1 exclusive), sample 25 of a
26-sample offline brown channel exceeds 1, and so does sample 24 of a
25-sample offline pink channel: neither offline generator normalizes by
the run's peak. -/
theorem c2_counterexample_offline_pink_and_brown_exceed_one :
    (0 ≤ steadyStream 0 ∧ steadyStream 0 < 1) ∧
    1 < (brownWalkOffline steadyStream 0 26 0).getD 25 0 ∧
    1 < (pinkOfflineChannel steadyStream 0 25 0 0 0 0 0 0 0).getD 24 0 := by
  refine ⟨⟨by norm_num [steadyStream], by norm_num [steadyStream]⟩, ?_, ?_⟩
  · norm_num [brownWalkOffline, steadyStream, List.getD]
  · norm_num [pinkOfflineChannel, steadyStream, List.getD]

/-- C2 amended: for every valid random stream, every sample of the live
white generator (whose loop body also is the offline white generator) lies
in the interval from -1 to 1, and so does every sample of the live pink
and live brown generators, which divide by the run's peak magnitude,
provided that peak is nonzero; the offline brown generator carries no such
guarantee (see the counterexample). -/
theorem c2_noise_samples_bounded_amended (r : ℕ → ℚ) (n : ℕ)
    (hr : ValidRandomStream r)
    (hpink : 0 < peakAbs (vossSums r 0 n 0 (List.replicate 7 0)))
    (hbrown : 0 < peakAbs (brownWalkLive r 0 n 0)) :
    (∀ s ∈ whiteNoiseChannel r n, -1 ≤ s ∧ s ≤ 1) ∧
    (∀ s ∈ pinkNoiseChannelLive r n, -1 ≤ s ∧ s ≤ 1) ∧
    (∀ s ∈ brownNoiseChannelLive r n, -1 ≤ s ∧ s ≤ 1) := by
  refine ⟨?_, ?_, ?_⟩
  · intro s hs
    rcases List.mem_map.mp hs with ⟨i, _, rfl⟩
    rcases hr i with ⟨h0, h1⟩
    constructor <;> nlinarith
  · exact mem_div_peakAbs_bounds _ hpink
  · exact mem_div_peakAbs_bounds _ hbrown

/-- Witness for the amended C2 theorem at the concrete stream whose draws
are all 0.999 and a three-sample run. -/
theorem c2_noise_samples_bounded_amended_witness :
    (∀ s ∈ whiteNoiseChannel steadyStream 3, -1 ≤ s ∧ s ≤ 1) ∧
    (∀ s ∈ pinkNoiseChannelLive steadyStream 3, -1 ≤ s ∧ s ≤ 1) ∧
    (∀ s ∈ brownNoiseChannelLive steadyStream 3, -1 ≤ s ∧ s ≤ 1) :=
  c2_noise_samples_bounded_amended steadyStream 3
    (fun _ => ⟨by norm_num [steadyStream], by norm_num [steadyStream]⟩)
    (by
      apply peakAbs_pos_of_mem _ (3493 / 500)
      · norm_num [vossSums, vossStep, octaveIndices, steadyStream, List.replicate]
      · norm_num)
    (by
      apply peakAbs_pos_of_mem _ (49401 / 500000)
      · norm_num [brownWalkLive, steadyStream]
      · norm_num)

/-!
Export sizing and duration handling (`_startFastExport`,
`_startRealTimeRecording`, AudioExporter constructor).
-/

/-- `options.duration || 60`: a missing (`none`) or zero duration is
falsy in JS and is replaced by the default 60 seconds. -/
def jsDurationOr60 : Option ℚ → ℚ
  | none => 60
  | some d => if d = 0 then 60 else d

/-- `this.recordingDuration = Math.min(options.duration || 60,
this.maxDuration)` — the identical expression appears in
`_startFastExport` and `_startRealTimeRecording`. -/
def recordingDurationOf (duration : Option ℚ) (maxDuration : ℚ) : ℚ :=
  min (jsDurationOr60 duration) maxDuration

/-- `this.maxDuration = options.maxDuration || 3600` in the
AudioExporter constructor. -/
def maxDurationDefault : ℚ := 3600

/-- `const numChannels = 2` in `_startFastExport`: the offline context is
created with two channels, so the rendered buffer has two channels. -/
def offlineNumChannels : ℕ := 2

/-- `const totalSamples = Math.ceil(sampleRate * this.recordingDuration)`
in `_startFastExport`: frame count of the offline context, hence the
per-channel length of the rendered buffer. -/
def offlineTotalSamples (sampleRate duration : ℚ) : ℤ := ⌈sampleRate * duration⌉

/-- C3 counterexample: the claim asserts the per-channel length equals
`round(sampleRate * durationSeconds)`. For sample rate 44100 and the
in-range duration 1 + 1/1024 (a number exactly representable in binary
floating point) the code computes `Math.ceil`, giving 44144, while
rounding gives 44143. -/
theorem c3_counterexample_ceil_vs_round :
    offlineTotalSamples 44100 (recordingDurationOf (some (1 + 1 / 1024)) maxDurationDefault)
      = 44144 ∧
    round ((44100 : ℚ) * (1 + 1 / 1024)) = 44143 := by
  constructor
  · have h : recordingDurationOf (some (1 + 1 / 1024)) maxDurationDefault = 1 + 1 / 1024 := by
      norm_num [recordingDurationOf, jsDurationOr60, maxDurationDefault]
    rw [offlineTotalSamples, h]
    norm_num [Int.ceil_eq_iff]
  · rw [round_eq]
    norm_num [Int.floor_eq_iff]

/-- C3 amended: for every requested duration in the range from 1 to 3600
seconds, the offline context has exactly 2 channels and
`ceil(sampleRate * durationSeconds)` samples per channel, which is within
one sample of `sampleRate * durationSeconds`. -/
theorem c3_offline_context_size_amended (sampleRate d : ℚ)
    (h1 : 1 ≤ d) (h2 : d ≤ 3600) :
    offlineNumChannels = 2 ∧
    offlineTotalSamples sampleRate (recordingDurationOf (some d) maxDurationDefault)
      = ⌈sampleRate * d⌉ ∧
    |(offlineTotalSamples sampleRate (recordingDurationOf (some d) maxDurationDefault) : ℚ)
        - sampleRate * d| ≤ 1 := by
  have hd0 : d ≠ 0 := by intro h; rw [h] at h1; norm_num at h1
  have hdur : recordingDurationOf (some d) maxDurationDefault = d := by
    simp [recordingDurationOf, jsDurationOr60, maxDurationDefault, hd0]
    exact h2
  refine ⟨rfl, by rw [hdur, offlineTotalSamples], ?_⟩
  rw [hdur, offlineTotalSamples]
  rw [abs_le]
  constructor
  · linarith [Int.le_ceil (sampleRate * d)]
  · linarith [Int.ceil_lt_add_one (sampleRate * d)]

/-- Witness for the amended C3 theorem at sample rate 44100 and a
60-second export. -/
theorem c3_offline_context_size_amended_witness :
    offlineNumChannels = 2 ∧
    offlineTotalSamples 44100 (recordingDurationOf (some 60) maxDurationDefault)
      = ⌈(44100 : ℚ) * 60⌉ ∧
    |(offlineTotalSamples 44100 (recordingDurationOf (some 60) maxDurationDefault) : ℚ)
        - 44100 * 60| ≤ 1 :=
  c3_offline_context_size_amended 44100 60 (by norm_num) (by norm_num)

/-!
Binaural track cloning (`_cloneBinauralTrack`) and the frequency split.
-/

/-- Oscillator wave type set through `osc.type = ...`. -/
inductive OscWave
  | sine
  | square
  deriving DecidableEq

/-- The offline subgraph built by `_cloneBinauralTrack`: two oscillators,
two stereo panners, one track gain. -/
structure BinauralCloneConfig where
  leftFreq : ℚ
  rightFreq : ℚ
  leftOscType : OscWave
  rightOscType : OscWave
  leftPan : ℚ
  rightPan : ℚ
  trackGainValue : ℚ
  deriving DecidableEq

/-- `_cloneBinauralTrack`: `leftOsc.frequency.value = track.leftFrequency`,
`rightOsc.frequency.value = track.rightFrequency`, both type sine,
`leftPanner.pan.value = -1`, `rightPanner.pan.value = 1`,
`trackGain.gain.value = track.getVolume()`. -/
def cloneBinauralTrack (leftFrequency rightFrequency volume : ℚ) : BinauralCloneConfig :=
  { leftFreq := leftFrequency
    rightFreq := rightFrequency
    leftOscType := .sine
    rightOscType := .sine
    leftPan := -1
    rightPan := 1
    trackGainValue := volume }

/-- Modelled from the spec: `BinauralTrack.js` (defining `leftFrequency`)
is imported by AudioController.js and audioEngine/index.js but is not
among the available source files; the spec (section 4.2) fixes the
derivation as left = carrier - beat/2. -/
def binauralLeftFrequency (carrier beat : ℚ) : ℚ := carrier - beat / 2

/-- Modelled from the spec: `BinauralTrack.js` (defining `rightFrequency`)
is not among the available source files; the spec (section 4.2) fixes the
derivation as right = carrier + beat/2. -/
def binauralRightFrequency (carrier beat : ℚ) : ℚ := carrier + beat / 2

/-- C4: the cloned binaural subgraph pans its two sine oscillators hard
left and hard right, and with the spec-modelled frequency derivation the
left and right frequencies are carrier - beat/2 and carrier + beat/2, so
the two ears differ by exactly the beat rate. -/
theorem c4_binaural_split_and_panning (c b v : ℚ) :
    (cloneBinauralTrack (binauralLeftFrequency c b) (binauralRightFrequency c b) v).leftPan
      = -1 ∧
    (cloneBinauralTrack (binauralLeftFrequency c b) (binauralRightFrequency c b) v).rightPan
      = 1 ∧
    (cloneBinauralTrack (binauralLeftFrequency c b) (binauralRightFrequency c b) v).leftOscType
      = OscWave.sine ∧
    (cloneBinauralTrack (binauralLeftFrequency c b) (binauralRightFrequency c b) v).rightOscType
      = OscWave.sine ∧
    (cloneBinauralTrack (binauralLeftFrequency c b) (binauralRightFrequency c b) v).leftFreq
      = c - b / 2 ∧
    (cloneBinauralTrack (binauralLeftFrequency c b) (binauralRightFrequency c b) v).rightFreq
      = c + b / 2 ∧
    (cloneBinauralTrack (binauralLeftFrequency c b) (binauralRightFrequency c b) v).rightFreq
        - (cloneBinauralTrack (binauralLeftFrequency c b) (binauralRightFrequency c b) v).leftFreq
      = b := by
  refine ⟨rfl, rfl, rfl, rfl, rfl, rfl, ?_⟩
  show c + b / 2 - (c - b / 2) = b
  ring

/-!
Export cancellation (`cancelRecording`, the completion continuation of
`_startFastExport` and `_processRenderedBuffer`).
-/

/-- The AudioExporter state fields involved in cancellation, together with
an observation log of the arguments passed to the `onComplete` callback. -/
structure ExporterState where
  isRecording : Bool
  isOfflineRendering : Bool
  exportCancelled : Bool
  recordedChunks : ℕ
  exportProgress : ℕ
  completedBlobs : List ℕ
  deriving DecidableEq

/-- `cancelRecording()`: returns false if no export is in flight;
otherwise sets `exportCancelled`, and for real-time recording stops the
recorder and clears the chunks, while for offline rendering it only
clears the `isOfflineRendering` flag. -/
def cancelRecording (st : ExporterState) : ExporterState × Bool :=
  if st.isRecording = false ∧ st.isOfflineRendering = false then (st, false)
  else
    let st1 := { st with exportCancelled := true }
    let st2 :=
      if st1.isRecording then { st1 with isRecording := false, recordedChunks := 0 }
      else if st1.isOfflineRendering then { st1 with isOfflineRendering := false }
      else st1
    (st2, true)

/-- The continuation `startRendering().then(renderedBuffer => ...)`
installed by `_startFastExport`, followed by `_processRenderedBuffer` in
the WAV branch: clear `isOfflineRendering`, report progress 90 then 100,
and invoke `onComplete` with the encoded blob — with no check of
`exportCancelled` anywhere on this path. -/
def offlineRenderCompleted (st : ExporterState) (blobId : ℕ) : ExporterState :=
  let st1 := { st with isOfflineRendering := false }
  { st1 with exportProgress := 100, completedBlobs := st1.completedBlobs ++ [blobId] }

/-- The exporter state while an offline render is in flight. -/
def renderingInFlight : ExporterState :=
  { isRecording := false
    isOfflineRendering := true
    exportCancelled := false
    recordedChunks := 0
    exportProgress := 0
    completedBlobs := [] }

/-- C5: cancelling during an offline render does flag the job cancelled,
but when rendering finishes the completion path still delivers the
rendered result: `onComplete` is invoked with the encoded blob even
though `exportCancelled` is set, because neither the `startRendering`
continuation nor `_processRenderedBuffer` consults the flag (only the
real-time `_finalizeRecording` does). -/
theorem c5_cancelled_offline_result_still_delivered :
    ((cancelRecording renderingInFlight).1.exportCancelled = true ∧
      (cancelRecording renderingInFlight).2 = true) ∧
    (offlineRenderCompleted (cancelRecording renderingInFlight).1 7).completedBlobs = [7] ∧
    (offlineRenderCompleted (cancelRecording renderingInFlight).1 7).exportCancelled = true := by
  refine ⟨⟨?_, ?_⟩, ?_, ?_⟩ <;> rfl

/-!
File-size estimation (`calculateEstimatedFileSize`).
-/

/-- `calculateEstimatedFileSize(durationSeconds, format, bitRate = null)`:
WAV gives `Math.ceil(durationSeconds * sampleRate * numChannels *
bytesPerSample) + 44` with `numChannels = 2` and `bytesPerSample = 2`;
MP3 gives `Math.ceil(durationSeconds * actualBitRate * 1000 / 8)` where
`actualBitRate = bitRate || this.mp3Options.bitRate`; any other format
leaves the initial 0. The instance fields `this.sampleRate` and
`this.mp3Options.bitRate` are passed explicitly. -/
def calculateEstimatedFileSizeBytes (durationSeconds : ℚ) (format : String)
    (bitRate : Option ℚ) (sampleRate mp3DefaultBitRate : ℚ) : ℤ :=
  if format = "wav" then ⌈durationSeconds * sampleRate * 2 * 2⌉ + 44
  else if format = "mp3" then
    let actualBitRate :=
      match bitRate with
      | none => mp3DefaultBitRate
      | some b => if b = 0 then mp3DefaultBitRate else b
    ⌈durationSeconds * actualBitRate * 1000 / 8⌉
  else 0

/-- C6: the estimator is a function of its arguments alone; for WAV it
returns `duration * sampleRate * 2 channels * 2 bytes + 44`, for MP3 it
returns `duration * bitRate * 1000 / 8` independent of the sample rate
(and of any rendering), and a 60-second MP3 estimate at 192 kbps is
exactly 1440000 bytes. -/
theorem c6_file_size_estimator (d s b : ℕ) (hb : 0 < b) :
    calculateEstimatedFileSizeBytes d "wav" none s 192 = (d : ℤ) * s * 2 * 2 + 44 ∧
    calculateEstimatedFileSizeBytes d "mp3" (some b) s 192 = (d : ℤ) * b * 1000 / 8 ∧
    calculateEstimatedFileSizeBytes 60 "mp3" (some 192) s 192 = 1440000 := by
  have hwav : ((d : ℚ) * s * 2 * 2) = ((d * s * 2 * 2 : ℕ) : ℚ) := by push_cast; ring
  have hmp3 : ((d : ℚ) * b * 1000 / 8) = ((d * b * 125 : ℕ) : ℚ) := by push_cast; ring
  have hb' : ¬((b : ℚ) = 0) := by positivity
  have hne : ¬(("mp3" : String) = "wav") := by decide
  refine ⟨?_, ?_, ?_⟩
  · simp only [calculateEstimatedFileSizeBytes, if_pos rfl]
    rw [hwav, Int.ceil_natCast]
    push_cast
    ring
  · simp only [calculateEstimatedFileSizeBytes, if_neg hne, if_pos rfl, hb', if_false]
    rw [hmp3, Int.ceil_natCast]
    rw [show ((d : ℤ) * b * 1000) = ((d * b * 125 : ℕ) : ℤ) * 8 by push_cast; ring]
    rw [Int.mul_ediv_cancel _ (by norm_num)]
    simp
  · simp only [calculateEstimatedFileSizeBytes, if_neg hne, if_pos rfl]
    norm_num

/-- Witness for C6 at a 60-second export, 44100 Hz, 192 kbps. -/
theorem c6_file_size_estimator_witness :
    calculateEstimatedFileSizeBytes 60 "wav" none 44100 192
        = (60 : ℤ) * 44100 * 2 * 2 + 44 ∧
    calculateEstimatedFileSizeBytes 60 "mp3" (some 192) 44100 192
        = (60 : ℤ) * 192 * 1000 / 8 ∧
    calculateEstimatedFileSizeBytes 60 "mp3" (some 192) 44100 192 = 1440000 := by
  have h := c6_file_size_estimator 60 44100 192 (by norm_num)
  refine ⟨?_, ?_, h.2.2⟩
  · have := h.1
    push_cast at this ⊢
    exact this
  · have := h.2.1
    push_cast at this ⊢
    exact this

/-!
Track stop and idempotence (`Track.stop`, `Track._applyFadeOut`).
-/

/-- The envelope-relevant state of a base Track: the playing flag, the
instantaneous gain value, and the configured fade-out duration. -/
structure TrackEnvelope where
  isPlaying : Bool
  gainValue : ℚ
  fadeOutDuration : ℚ
  deriving DecidableEq

/-- What one call of `Track.stop()` does, observed at the moment its
promise resolves: the state then, the ramp scheduled by `_applyFadeOut`
(anchor value and duration), and how long the call awaited. -/
structure StopOutcome where
  state : TrackEnvelope
  scheduledRamp : Option (ℚ × ℚ)
  awaitedSeconds : ℚ
  deriving DecidableEq

/-- `Track.stop()`: if not playing, return an already-resolved promise
with nothing scheduled; otherwise `_applyFadeOut` cancels pending ramps,
anchors the gain at its current value and ramps linearly to 0 over
`fadeOutDuration`, the promise resolves after that duration (at which
point the ramp has reached 0), and then `isPlaying` is cleared. -/
def trackStop (t : TrackEnvelope) : StopOutcome :=
  if t.isPlaying = false then
    { state := t, scheduledRamp := none, awaitedSeconds := 0 }
  else
    { state := { t with gainValue := 0, isPlaying := false }
      scheduledRamp := some (t.gainValue, t.fadeOutDuration)
      awaitedSeconds := t.fadeOutDuration }

/-- C7: for a playing track, after `stop()` resolves the envelope value is
0 and the track is idle; a second `stop()` is a no-op: it leaves the state
unchanged, schedules no ramp, and resolves immediately. -/
theorem c7_stop_then_idempotent (t : TrackEnvelope) (h : t.isPlaying = true) :
    (trackStop t).state.gainValue = 0 ∧
    (trackStop t).state.isPlaying = false ∧
    trackStop (trackStop t).state
      = { state := (trackStop t).state, scheduledRamp := none, awaitedSeconds := 0 } := by
  simp [trackStop, h]

/-- A playing track at volume 0.7 with a one-second fade-out. -/
def playingTrack : TrackEnvelope :=
  { isPlaying := true, gainValue := 7 / 10, fadeOutDuration := 1 }

/-- Witness for C7 at the concrete playing track. -/
theorem c7_stop_then_idempotent_witness :
    (trackStop playingTrack).state.gainValue = 0 ∧
    (trackStop playingTrack).state.isPlaying = false ∧
    trackStop (trackStop playingTrack).state
      = { state := (trackStop playingTrack).state, scheduledRamp := none,
          awaitedSeconds := 0 } :=
  c7_stop_then_idempotent playingTrack rfl

/-!
Isochronic gating (`_createPulseWaveShaper`, `_cloneIsochronicTrack`,
`IsochronicTrack._createOscillator`).
-/

/-- `_createPulseWaveShaper`: a 256-entry curve whose first 128 entries
are 0 and whose last 128 entries are 1. -/
def createPulseWaveShaper : List ℚ :=
  (List.range 256).map fun i => if i < 128 then 0 else 1

/-- The offline subgraph built by `_cloneIsochronicTrack`: sine carrier,
sine LFO at the beat frequency, a wave shaper with the pulse curve feeding
the modulation gain (base value 0), then the track gain. -/
structure IsoCloneConfig where
  carrierType : OscWave
  carrierFreq : ℚ
  lfoType : OscWave
  lfoFreq : ℚ
  shaperCurve : Option (List ℚ)
  modulationGainBase : ℚ
  trackGainValue : ℚ

/-- `_cloneIsochronicTrack`: `carrierOsc.type = 'sine'`,
`lfo.type = 'sine'`, `lfo.frequency.value = track.beatFrequency`,
`waveShaper.curve = this._createPulseWaveShaper()`,
`modulationGain.gain.value = 0`, LFO connected through the shaper to the
modulation gain. -/
def cloneIsochronicTrack (carrierFrequency beatFrequency volume : ℚ) : IsoCloneConfig :=
  { carrierType := .sine
    carrierFreq := carrierFrequency
    lfoType := .sine
    lfoFreq := beatFrequency
    shaperCurve := some createPulseWaveShaper
    modulationGainBase := 0
    trackGainValue := volume }

/-- The live subgraph built by `IsochronicTrack._createOscillator`: sine
carrier, square LFO through a unit gain directly into the modulation
gain (base value 0), with no wave shaper anywhere. -/
structure IsoLiveConfig where
  carrierType : OscWave
  carrierFreq : ℚ
  lfoType : OscWave
  lfoFreq : ℚ
  lfoGainValue : ℚ
  shaperCurve : Option (List ℚ)
  modulationGainBase : ℚ

/-- `IsochronicTrack._createOscillator`: `oscillator.type = 'sine'`,
`lfo.type = 'square'`, `lfoGain.gain.value = 1`, LFO connected through
`lfoGain` straight to `modulationGain.gain`, whose base value is set to
0; no `createWaveShaper` call occurs in the live path. -/
def isochronicLiveOscillator (carrierFrequency beatFrequency : ℚ) : IsoLiveConfig :=
  { carrierType := .sine
    carrierFreq := carrierFrequency
    lfoType := .square
    lfoFreq := beatFrequency
    lfoGainValue := 1
    shaperCurve := none
    modulationGainBase := 0 }

/-- C8 counterexample: the claim has a square-wave LFO feeding the 0/1
shaping table. At carrier 200 Hz, beat 7 Hz, volume 0.7: in the offline
clone (the only place the shaping table exists) the LFO type is sine, not
square, and in the live track (the only place the LFO is square) no
shaping table exists. -/
theorem c8_counterexample_no_square_lfo_into_shaper :
    (cloneIsochronicTrack 200 7 (7 / 10)).lfoType ≠ OscWave.square ∧
    (isochronicLiveOscillator 200 7).shaperCurve = none := by
  exact ⟨by decide, rfl⟩

/-- C8 amended: in the offline clone a sine LFO at the beat rate is
shaped by the 256-entry pulse table — first 128 entries 0, last 128
entries 1, so every table value is 0 or 1 — into the modulation gain
(base 0) that multiplies the sine carrier before the track envelope; the
live track instead feeds a raw square-wave LFO (no shaping table) into
its modulation gain. -/
theorem c8_isochronic_gating_amended (c b v : ℚ) :
    (cloneIsochronicTrack c b v).carrierType = OscWave.sine ∧
    (cloneIsochronicTrack c b v).lfoType = OscWave.sine ∧
    (cloneIsochronicTrack c b v).lfoFreq = b ∧
    (cloneIsochronicTrack c b v).shaperCurve = some createPulseWaveShaper ∧
    createPulseWaveShaper.take 128 = List.replicate 128 0 ∧
    createPulseWaveShaper.drop 128 = List.replicate 128 1 ∧
    (∀ x ∈ createPulseWaveShaper, x = 0 ∨ x = 1) ∧
    (cloneIsochronicTrack c b v).modulationGainBase = 0 ∧
    (isochronicLiveOscillator c b).lfoType = OscWave.square ∧
    (isochronicLiveOscillator c b).shaperCurve = none ∧
    (isochronicLiveOscillator c b).modulationGainBase = 0 := by
  refine ⟨rfl, rfl, rfl, rfl, by decide, by decide, ?_, rfl, rfl, rfl, rfl⟩
  intro x hx
  rcases List.mem_map.mp hx with ⟨i, _, rfl⟩
  by_cases h : i < 128
  · exact Or.inl (by simp [h])
  · exact Or.inr (by simp [h])

/-- Witness for the amended C8 theorem at carrier 200 Hz, beat 7 Hz,
volume 0.7. -/
theorem c8_isochronic_gating_amended_witness :
    (cloneIsochronicTrack 200 7 (7 / 10)).carrierType = OscWave.sine ∧
    (cloneIsochronicTrack 200 7 (7 / 10)).lfoType = OscWave.sine ∧
    (cloneIsochronicTrack 200 7 (7 / 10)).lfoFreq = 7 ∧
    (cloneIsochronicTrack 200 7 (7 / 10)).shaperCurve = some createPulseWaveShaper ∧
    createPulseWaveShaper.take 128 = List.replicate 128 0 ∧
    createPulseWaveShaper.drop 128 = List.replicate 128 1 ∧
    (∀ x ∈ createPulseWaveShaper, x = 0 ∨ x = 1) ∧
    (cloneIsochronicTrack 200 7 (7 / 10)).modulationGainBase = 0 ∧
    (isochronicLiveOscillator 200 7).lfoType = OscWave.square ∧
    (isochronicLiveOscillator 200 7).shaperCurve = none ∧
    (isochronicLiveOscillator 200 7).modulationGainBase = 0 :=
  c8_isochronic_gating_amended 200 7 (7 / 10)

/-!
Noise color updates (`NoiseTrack.update`).
-/

/-- ASCII lowercasing, `params.noiseType.toLowerCase()`. -/
def jsToLowerCase (s : String) : String := s.map Char.toLower

/-- The valid noise colors checked by
`['white', 'pink', 'brown'].includes(...)`. -/
def validNoiseTypes : List String := ["white", "pink", "brown"]

/-- The update-relevant state of a NoiseTrack: its stored (lowercased)
noise color, the playing flag, and the current volume. -/
structure NoiseTrackState where
  noiseType : String
  isPlaying : Bool
  volume : ℚ
  deriving DecidableEq

/-- Observable outcome of `NoiseTrack.update` for the `noiseType`
parameter: the new state, the color with which the track was
stop-then-started (rebuilding its buffer via `_createNoiseBuffer`), if
any, and the volume restored by `setVolume(currentVolume)` after the
restart, if any. A restart is the only mechanism that touches the color;
no code path ramps it. -/
structure NoiseUpdateOutcome where
  state : NoiseTrackState
  restartedWithColor : Option String
  restoredVolume : Option ℚ
  deriving DecidableEq

/-- `NoiseTrack.update`: if a noise type is supplied (a missing parameter,
like the falsy empty string, changes nothing), it is lowercased and
checked against the valid colors; only a valid, different color marks the
track changed; a changed color on a playing track stops the track, starts
it again (rebuilding the buffer with the new color) and restores the
volume captured before the stop. -/
def noiseTrackUpdate (st : NoiseTrackState) (newType : Option String) : NoiseUpdateOutcome :=
  match newType with
  | none => { state := st, restartedWithColor := none, restoredVolume := none }
  | some s =>
    let lower := jsToLowerCase s
    if lower ∈ validNoiseTypes ∧ st.noiseType ≠ lower then
      let st1 := { st with noiseType := lower }
      if st1.isPlaying then
        { state := st1, restartedWithColor := some lower, restoredVolume := some st.volume }
      else
        { state := st1, restartedWithColor := none, restoredVolume := none }
    else
      { state := st, restartedWithColor := none, restoredVolume := none }

/-- C9: on a playing noise track, an update to a different valid color
stop-then-starts the track with the new color and restores the previous
volume; an update to the same color, or to an invalid color, performs no
restart and (for invalid colors) leaves the stored color untouched. -/
theorem c9_noise_color_update (st : NoiseTrackState) (c : String)
    (hplay : st.isPlaying = true) :
    (jsToLowerCase c ∈ validNoiseTypes →
      st.noiseType ≠ jsToLowerCase c →
      noiseTrackUpdate st (some c)
        = { state := { st with noiseType := jsToLowerCase c }
            restartedWithColor := some (jsToLowerCase c)
            restoredVolume := some st.volume }) ∧
    (st.noiseType = jsToLowerCase c →
      noiseTrackUpdate st (some c)
        = { state := st, restartedWithColor := none, restoredVolume := none }) ∧
    (jsToLowerCase c ∉ validNoiseTypes →
      noiseTrackUpdate st (some c)
        = { state := st, restartedWithColor := none, restoredVolume := none }) := by
  refine ⟨?_, ?_, ?_⟩
  · intro hvalid hdiff
    simp [noiseTrackUpdate, hvalid, hdiff, hplay]
  · intro hsame
    simp [noiseTrackUpdate, hsame]
  · intro hinvalid
    simp [noiseTrackUpdate, hinvalid]

/-- A playing white-noise track at volume 0.7. -/
def playingWhiteNoise : NoiseTrackState :=
  { noiseType := "white", isPlaying := true, volume := 7 / 10 }

/-- Witness for C9: updating the playing white track to color `Pink`. -/
theorem c9_noise_color_update_witness :
    (jsToLowerCase "Pink" ∈ validNoiseTypes →
      playingWhiteNoise.noiseType ≠ jsToLowerCase "Pink" →
      noiseTrackUpdate playingWhiteNoise (some "Pink")
        = { state := { playingWhiteNoise with noiseType := jsToLowerCase "Pink" }
            restartedWithColor := some (jsToLowerCase "Pink")
            restoredVolume := some playingWhiteNoise.volume }) ∧
    (playingWhiteNoise.noiseType = jsToLowerCase "Pink" →
      noiseTrackUpdate playingWhiteNoise (some "Pink")
        = { state := playingWhiteNoise, restartedWithColor := none,
            restoredVolume := none }) ∧
    (jsToLowerCase "Pink" ∉ validNoiseTypes →
      noiseTrackUpdate playingWhiteNoise (some "Pink")
        = { state := playingWhiteNoise, restartedWithColor := none,
            restoredVolume := none }) :=
  c9_noise_color_update playingWhiteNoise "Pink" rfl

/-!
Duration clamping on both export paths.
-/

/-- The error kinds raised by the early checks of `_startFastExport` and
`_startRealTimeRecording`. -/
inductive ExportErrorKind
  | alreadyInProgress
  | notSetUp
  | unsupported
  deriving DecidableEq

/-- Values computed when `_startFastExport` accepts a request. -/
structure FastExportSetup where
  recordingDuration : ℚ
  numChannels : ℕ
  totalSamples : ℤ
  deriving DecidableEq

/-- The argument checks and duration handling of `_startFastExport`:
errors only for an export already in progress or a missing source node;
the duration is never validated, only clamped via
`Math.min(options.duration || 60, this.maxDuration)`. -/
def startFastExport (isRecording isOfflineRendering sourceNodeSet : Bool)
    (duration : Option ℚ) (maxDuration sampleRate : ℚ) :
    Except ExportErrorKind FastExportSetup :=
  if isRecording || isOfflineRendering then .error .alreadyInProgress
  else if sourceNodeSet = false then .error .notSetUp
  else
    .ok
      { recordingDuration := recordingDurationOf duration maxDuration
        numChannels := offlineNumChannels
        totalSamples :=
          offlineTotalSamples sampleRate (recordingDurationOf duration maxDuration) }

/-- The argument checks and duration handling of
`_startRealTimeRecording`: errors only for missing support, a recording
already in progress, or a missing destination node; the duration is
clamped by the same expression as on the fast path. -/
def startRealTimeRecording (isSupported isRecording destinationNodeSet : Bool)
    (duration : Option ℚ) (maxDuration : ℚ) : Except ExportErrorKind ℚ :=
  if isSupported = false then .error .unsupported
  else if isRecording then .error .alreadyInProgress
  else if destinationNodeSet = false then .error .notSetUp
  else .ok (recordingDurationOf duration maxDuration)

/-- C10: with the default 3600-second maximum, a duration above the
maximum is silently clamped to 3600, a missing or zero duration silently
becomes 60, and on both the offline and real-time paths an out-of-range
duration still yields a successful start (no error) with the clamped
duration. -/
theorem c10_duration_clamped_not_rejected (d sampleRate : ℚ) (h : 3600 < d) :
    recordingDurationOf (some d) maxDurationDefault = 3600 ∧
    recordingDurationOf none maxDurationDefault = 60 ∧
    recordingDurationOf (some 0) maxDurationDefault = 60 ∧
    startFastExport false false true (some d) maxDurationDefault sampleRate
      = .ok
          { recordingDuration := 3600
            numChannels := 2
            totalSamples := offlineTotalSamples sampleRate 3600 } ∧
    startRealTimeRecording true false true (some d) maxDurationDefault = .ok 3600 := by
  have hd0 : d ≠ 0 := by intro hz; rw [hz] at h; norm_num at h
  have hclamp : recordingDurationOf (some d) maxDurationDefault = 3600 := by
    simp [recordingDurationOf, jsDurationOr60, maxDurationDefault, hd0]
    linarith
  refine ⟨hclamp, ?_, ?_, ?_, ?_⟩
  · norm_num [recordingDurationOf, jsDurationOr60, maxDurationDefault]
  · norm_num [recordingDurationOf, jsDurationOr60, maxDurationDefault]
  · simp [startFastExport, hclamp, offlineNumChannels]
  · simp [startRealTimeRecording, hclamp]

/-- Witness for C10 at the over-long requested duration 4000 seconds. -/
theorem c10_duration_clamped_not_rejected_witness :
    recordingDurationOf (some 4000) maxDurationDefault = 3600 ∧
    recordingDurationOf none maxDurationDefault = 60 ∧
    recordingDurationOf (some 0) maxDurationDefault = 60 ∧
    startFastExport false false true (some 4000) maxDurationDefault 44100
      = .ok
          { recordingDuration := 3600
            numChannels := 2
            totalSamples := offlineTotalSamples 44100 3600 } ∧
    startRealTimeRecording true false true (some 4000) maxDurationDefault = .ok 3600 :=
  c10_duration_clamped_not_rejected 4000 44100 (by norm_num)

end BinauralApp
